import Mathlib

/-!
Verification of the `pi_pointer` crate: a position-independent pointer
(`PIPtr`) storing an offset from a shared region base, a passthrough
implementation for plain `*mut ()` pointers, and an atomic single-slot
container (`AtomicWrappedPtr`).

Machine words (`usize` on a 64-bit target) are modelled as `Nat` with
explicit reduction modulo `2 ^ 64`; the wrapping `+` / `-` of the source
are `wadd` / `wsub`.  The external base-address provider
(`GetDataBase::get_data_base`) is modelled as an explicit `base`
argument: the source queries it afresh on every translation, so each
call site simply receives the current base.
-/

namespace PiPointer

/-- Word size of the target: `usize` is 64 bits. -/
def W : Nat := 2 ^ 64

/-- The reserved null sentinel, `NULL_PTR = 0x8000_0000_8000_0000`. -/
def NULL_PTR : Nat := 0x8000000080000000

/-- Wrapping addition on 64-bit machine words. -/
def wadd (a b : Nat) : Nat := (a + b) % W

/-- Wrapping subtraction on 64-bit machine words. -/
def wsub (a b : Nat) : Nat := (a + (W - b % W)) % W

/-- `PIPtr(*mut ())`: a single machine word holding an offset from the
shared region base. -/
structure PIPtr where
  val : Nat
deriving DecidableEq, Repr

namespace PIPtr

/-- `fn value(&self) -> *mut () { self.0 }` -/
def value (p : PIPtr) : Nat := p.val

/-- `fn ptr(&self)`: sentinel passes through unchanged; otherwise the
stored offset plus the current base, `self.0 as usize + get_data_base()`. -/
def ptr (p : PIPtr) (base : Nat) : Nat :=
  if p.val = NULL_PTR then NULL_PTR else wadd p.val base

/-- `fn from_value(value: *mut ()) -> Self { Self(value) }` -/
def from_value (v : Nat) : PIPtr := ⟨v⟩

/-- `fn from_ptr(ptr: *mut ())`: sentinel stored unchanged; otherwise
`ptr as usize - get_data_base()` is stored. -/
def from_ptr (a base : Nat) : PIPtr :=
  if a = NULL_PTR then ⟨NULL_PTR⟩ else ⟨wsub a base⟩

/-- `fn set(&mut self, value: *mut ()) { self.0 = value; }` -/
def set (_p : PIPtr) (v : Nat) : PIPtr := ⟨v⟩

/-- `fn is_null(&self) -> bool { self.0 as usize == NULL_PTR }` -/
def is_null (p : PIPtr) : Bool := p.val = NULL_PTR

/-- Default `null()` of the `WrappedPtr` trait:
`Self::from_value(NULL_PTR as *mut ())`. -/
def null : PIPtr := from_value NULL_PTR

end PIPtr

/-- The plain passthrough variant: `impl WrappedPtr for *mut ()`.
A bare machine word. -/
def MutPtr := Nat

namespace MutPtr

/-- `fn value(&self) -> *mut () { *self }` -/
def value (p : MutPtr) : Nat := p

/-- `fn ptr(&self) -> *mut () { *self }` -/
def ptr (p : MutPtr) : Nat := p

/-- `fn from_value(value: *mut ()) -> Self { value }` -/
def from_value (v : Nat) : MutPtr := v

/-- `fn from_ptr(ptr: *mut ()) -> Self { ptr }` -/
def from_ptr (a : Nat) : MutPtr := a

/-- `fn set(&mut self, value: *mut ()) { *self = value }` -/
def set (_p : MutPtr) (v : Nat) : MutPtr := v

/-- `fn is_null(&self) -> bool { *self as usize == NULL_PTR }` -/
def is_null (p : MutPtr) : Bool := value p = NULL_PTR

end MutPtr

/-- `AtomicWrappedPtr<T>`: one machine word of storage (`AtomicPtr<()>`),
accessed sequentially in this embedding (concurrency orderings are out of
scope; the value semantics of each primitive are modelled). -/
structure AtomicWrappedPtr where
  inner : Nat
deriving DecidableEq, Repr

namespace AtomicWrappedPtr

/-- `pub fn load_value(&self) -> *mut ()`: atomic load of the raw word. -/
def load_value (s : AtomicWrappedPtr) : Nat := s.inner

/-- `pub fn store(&self, value: *mut ())`: atomic store of a raw word. -/
def store (_s : AtomicWrappedPtr) (v : Nat) : AtomicWrappedPtr := ⟨v⟩

/-- `pub const fn null() -> Self`: slot initialised to the sentinel. -/
def null : AtomicWrappedPtr := ⟨NULL_PTR⟩

/-- `pub fn compare_exchange(&self, current, new) -> Result`: replaces the
stored word with `new` when it equals `current`, returning `Ok(previous)`;
otherwise leaves storage unchanged and returns `Err(actual)`.  The result
pair is (state after the call, returned `Result`). -/
def compare_exchange (s : AtomicWrappedPtr) (current new : Nat) :
    AtomicWrappedPtr × Except Nat Nat :=
  if s.inner = current then (⟨new⟩, Except.ok s.inner)
  else (s, Except.error s.inner)

end AtomicWrappedPtr

/-! ## Theorems -/

/-- C1 counterexample: at address `0x8000000080001000` (not the sentinel)
under base `0x1000`, the computed offset collides with the sentinel, so
`from_ptr` then `ptr` under the same base returns the sentinel, not the
original address.  The round-trip claim fails as stated. -/
theorem C1_counterexample :
    (0x8000000080001000 : Nat) ≠ NULL_PTR ∧
    (PIPtr.from_ptr 0x8000000080001000 0x1000).ptr 0x1000 ≠ 0x8000000080001000 := by
  constructor
  · decide
  · decide

/-- C1 (amended): for every machine-word address `a` distinct from the null
sentinel and every base `b`, provided the stored offset `(a - b) mod 2^64`
does not itself collide with the sentinel, `from_ptr(a)` then `ptr()` under
the same base `b` returns exactly `a`. -/
theorem C1_roundtrip (a b : Nat) (ha : a < W) (hna : a ≠ NULL_PTR)
    (hoff : wsub a b ≠ NULL_PTR) :
    (PIPtr.from_ptr a b).ptr b = a := by
  simp only [PIPtr.from_ptr, PIPtr.ptr, if_neg hna, if_neg hoff]
  simp only [wadd, wsub, W] at *
  omega

/-- Witness for C1: `a = 0x1040`, `b = 0x1000` satisfies the hypotheses and
round-trips exactly. -/
theorem C1_roundtrip_witness :
    (0x1040 : Nat) < W ∧ (0x1040 : Nat) ≠ NULL_PTR ∧
    wsub 0x1040 0x1000 ≠ NULL_PTR ∧
    (PIPtr.from_ptr 0x1040 0x1000).ptr 0x1000 = 0x1040 :=
  ⟨by decide, by decide, by decide,
    C1_roundtrip 0x1040 0x1000 (by decide) (by decide) (by decide)⟩

/-- C2: `ptr()` on any stored non-sentinel offset `o` under base `b2`
yields the word `o + b2` (machine addition), independent of the base in
effect when the offset was produced; concretely, address `0x1040` stored
under base `0x1000` gives offset `0x40`, and reading that offset under
base `0x5000` gives `0x5040`. -/
theorem C2_cross_space :
    (∀ o b2, o ≠ NULL_PTR → (PIPtr.from_value o).ptr b2 = (o + b2) % W) ∧
    (PIPtr.from_ptr 0x1040 0x1000).value = 0x40 ∧
    (PIPtr.from_value 0x40).ptr 0x5000 = 0x5040 := by
  refine ⟨fun o b2 ho => ?_, by decide, by decide⟩
  simp [PIPtr.from_value, PIPtr.ptr, ho, wadd]

/-- Witness for C2 at `o = 0x40`, `b2 = 0x5000`. -/
theorem C2_cross_space_witness :
    (0x40 : Nat) ≠ NULL_PTR ∧
    (PIPtr.from_value 0x40).ptr 0x5000 = (0x40 + 0x5000) % W :=
  ⟨by decide, C2_cross_space.1 0x40 0x5000 (by decide)⟩

/-- C3: `from_ptr` at the sentinel stores exactly the sentinel for every
base (no base query affects the result, no arithmetic), and `ptr()` on any
pointer storing the sentinel returns exactly the sentinel under any base. -/
theorem C3_null_preservation :
    ∀ b, (PIPtr.from_ptr NULL_PTR b).value = NULL_PTR ∧
      ∀ p : PIPtr, p.value = NULL_PTR → p.ptr b = NULL_PTR := by
  intro b
  refine ⟨by simp [PIPtr.from_ptr, PIPtr.value], fun p hp => ?_⟩
  simp only [PIPtr.value] at hp
  simp [PIPtr.ptr, hp]

/-- Witness for C3 at base `0x1000` and the canonically stored sentinel. -/
theorem C3_null_preservation_witness :
    (PIPtr.from_ptr NULL_PTR 0x1000).value = NULL_PTR ∧
    (PIPtr.from_value NULL_PTR).ptr 0x1000 = NULL_PTR :=
  ⟨(C3_null_preservation 0x1000).1,
    (C3_null_preservation 0x1000).2 (PIPtr.from_value NULL_PTR) rfl⟩

/-- C4: `is_null()` holds iff the stored offset (`value()`) equals the
sentinel, and `null()` and `from_value(NULL_PTR)` agree on every
observation (`value`, `ptr` under every base, `is_null`). -/
theorem C4_is_null_agreement :
    (∀ p : PIPtr, p.is_null = true ↔ p.value = NULL_PTR) ∧
    PIPtr.null.value = (PIPtr.from_value NULL_PTR).value ∧
    (∀ b, PIPtr.null.ptr b = (PIPtr.from_value NULL_PTR).ptr b) ∧
    PIPtr.null.is_null = (PIPtr.from_value NULL_PTR).is_null := by
  refine ⟨fun p => ?_, rfl, fun b => rfl, rfl⟩
  simp [PIPtr.is_null, PIPtr.value]

/-- Witness for C4: the canonically built null pointer is reported null. -/
theorem C4_is_null_agreement_witness :
    (PIPtr.from_value NULL_PTR).is_null = true :=
  (C4_is_null_agreement.1 (PIPtr.from_value NULL_PTR)).mpr rfl

/-- C5: `compare_exchange(expected, new)` replaces the stored word with
`new` exactly when the current stored word equals `expected`, returning
the previous word; on failure the stored word is unchanged and the error
value is the actual current stored word.  No translation occurs: the
operation is stated entirely on raw stored words. -/
theorem C5_cas (s : AtomicWrappedPtr) (e n : Nat) :
    (s.inner = e →
      s.compare_exchange e n = (⟨n⟩, Except.ok s.inner)) ∧
    (s.inner ≠ e →
      s.compare_exchange e n = (s, Except.error s.inner)) := by
  unfold AtomicWrappedPtr.compare_exchange
  constructor
  · intro h; simp [h]
  · intro h; simp [h]

/-- Witness for C5: a succeeding and a failing CAS on concrete words. -/
theorem C5_cas_witness :
    AtomicWrappedPtr.compare_exchange ⟨3⟩ 3 7 = (⟨7⟩, Except.ok 3) ∧
    AtomicWrappedPtr.compare_exchange ⟨3⟩ 4 7 = (⟨3⟩, Except.error 3) :=
  ⟨(C5_cas ⟨3⟩ 3 7).1 rfl, (C5_cas ⟨3⟩ 4 7).2 (by decide)⟩

/-- C6: for the `*mut ()` passthrough variant, `value`, `ptr`,
`from_value` and `from_ptr` are all the identity on the raw word, and
`is_null` holds exactly when the word equals the sentinel. -/
theorem C6_passthrough :
    (∀ v : Nat, MutPtr.value (MutPtr.from_value v) = v ∧
      MutPtr.ptr (MutPtr.from_value v) = v ∧
      MutPtr.from_value v = v ∧ MutPtr.from_ptr v = v) ∧
    (∀ v : Nat, MutPtr.is_null (MutPtr.from_value v) = true ↔ v = NULL_PTR) := by
  refine ⟨fun v => ⟨rfl, rfl, rfl, rfl⟩, fun v => ?_⟩
  simp [MutPtr.is_null, MutPtr.from_value, MutPtr.value]

/-- Witness for C6: the sentinel word is reported null by the
passthrough variant. -/
theorem C6_passthrough_witness :
    MutPtr.is_null (MutPtr.from_value NULL_PTR) = true :=
  (C6_passthrough.2 NULL_PTR).mpr rfl

/-- C7: for both concrete variants and every word `v` (the sentinel
included), `from_value(v).value() = v`, and after `set(v)` the `value()`
of the mutated object is exactly `v`. -/
theorem C7_value_roundtrip (v : Nat) (p : PIPtr) (q : MutPtr) :
    (PIPtr.from_value v).value = v ∧ (p.set v).value = v ∧
    MutPtr.value (MutPtr.from_value v) = v ∧ MutPtr.value (MutPtr.set q v) = v :=
  ⟨rfl, rfl, rfl, rfl⟩

/-- C8: `from_ptr` and `ptr` are total: for all machine-word inputs they
produce machine words (wrapping arithmetic, no failure path), and the
sentinel bypasses arithmetic entirely — it is stored and returned
unchanged with no dependence on the base. -/
theorem C8_totality (a o b : Nat) :
    (PIPtr.from_ptr a b).value < W ∧ PIPtr.ptr (PIPtr.from_value o) b < W ∧
    PIPtr.from_ptr NULL_PTR b = PIPtr.from_value NULL_PTR ∧
    PIPtr.ptr (PIPtr.from_value NULL_PTR) b = NULL_PTR := by
  have hW : 0 < W := by decide
  refine ⟨?_, ?_, ?_, ?_⟩
  · simp only [PIPtr.from_ptr]
    split
    · simpa [PIPtr.value] using (by decide : NULL_PTR < W)
    · simp only [PIPtr.value, wsub]
      exact Nat.mod_lt _ hW
  · simp only [PIPtr.from_value, PIPtr.ptr]
    split
    · decide
    · simp only [wadd]
      exact Nat.mod_lt _ hW
  · simp [PIPtr.from_ptr, PIPtr.from_value]
  · simp [PIPtr.from_value, PIPtr.ptr]

/-- C9: the all-zero word is a legitimate non-null value for both
variants; only the sentinel denotes null. -/
theorem C9_zero_not_null :
    (PIPtr.from_value 0).is_null = false ∧
    MutPtr.is_null (MutPtr.from_value 0) = false ∧ NULL_PTR ≠ 0 := by
  refine ⟨by decide, by decide, by decide⟩

/-- C10: when a non-sentinel address `a` has `(a - b) mod 2^64` equal to
the sentinel, `from_ptr(a)` under base `b` is reported null, its `ptr()`
returns the sentinel under every base, and the round trip under base `b`
does not reproduce `a`. -/
theorem C10_collision (a b : Nat) (ha : a ≠ NULL_PTR) (hc : wsub a b = NULL_PTR) :
    (PIPtr.from_ptr a b).is_null = true ∧
    (∀ b2, (PIPtr.from_ptr a b).ptr b2 = NULL_PTR) ∧
    (PIPtr.from_ptr a b).ptr b ≠ a := by
  have h1 : PIPtr.from_ptr a b = ⟨NULL_PTR⟩ := by
    simp [PIPtr.from_ptr, ha, hc]
  refine ⟨by simp [h1, PIPtr.is_null], fun b2 => by simp [h1, PIPtr.ptr], ?_⟩
  simp only [h1, PIPtr.ptr, if_pos rfl]
  exact Ne.symm ha

/-- Witness for C10 at the colliding address `0x8000000080001000` under
base `0x1000`. -/
theorem C10_collision_witness :
    (0x8000000080001000 : Nat) ≠ NULL_PTR ∧
    wsub 0x8000000080001000 0x1000 = NULL_PTR ∧
    (PIPtr.from_ptr 0x8000000080001000 0x1000).is_null = true :=
  ⟨by decide, by decide,
    (C10_collision 0x8000000080001000 0x1000 (by decide) (by decide)).1⟩

end PiPointer
